import Mathlib

/-!
Shallow embedding of the trading bot in `src/main.py` (a single-file,
single-position automated trading framework: a volatility-breakout strategy,
an RSI strategy, a position manager with buy/sell, and a polling control loop
with a daily reset window).

Modelling conventions:
* Prices, amounts and budgets are embedded as rationals (`ℚ`); the Python
  source uses floats, but every property checked here is plain field
  arithmetic and comparison, independent of binary rounding.
* A fallible external call (a `ccxt` gateway call wrapped in `try/except`)
  is embedded as an `Option`-valued input: `none` means the call raised and
  the surrounding `except` branch runs.
* Python truthiness on an optional number (`if not x`) is embedded by
  `pyTruthy : Option ℚ → Bool`, false exactly on `None` and `0`.
* Side effects (gateway calls, CSV trade-log appends, Telegram
  notifications, clearing the position slot) are collected in an explicit
  trace, in the order the corresponding statements execute in the source.
* The Korean notification/reason string literals of the source are embedded
  as structured tags; `Reason.text` keeps the exact source literals.
-/

/-- Signals returned by `get_signal` in the source: 'BUY', 'SELL', 'HOLD'. -/
inductive Signal where
  | BUY
  | SELL
  | HOLD
deriving DecidableEq, Repr

/-- One OHLCV candle as returned by `fetch_ohlcv`:
`(timestamp, open, high, low, close, volume)`. -/
structure Candle where
  ts : ℚ
  openPrice : ℚ
  high : ℚ
  low : ℚ
  close : ℚ
  volume : ℚ
deriving DecidableEq, Repr

/-- The sell reason passed to `TradingBot.sell_position(reason=...)`.
The source passes the literals "정기 매도" (scheduled daily sell) from the
reset branch of `run`, and "전략 매도 신호" (strategy sell signal) from the
SELL branch; the spec renders these "scheduled-reset" and "strategy-signal". -/
inductive Reason where
  | scheduledReset
  | strategySignal
  | custom (s : String)
deriving DecidableEq, Repr

/-- The exact string literal the source passes for each reason. -/
def Reason.text : Reason → String
  | .scheduledReset => "정기 매도"
  | .strategySignal => "전략 매도 신호"
  | .custom s => s

/-- Python truthiness of an optional number: `None` and `0` are falsy
(`if not amount_to_sell`, `if not exit_price` in the source). -/
def pyTruthy : Option ℚ → Bool
  | none => false
  | some x => x != 0

/-- Embedding of Python `a or b` on two optional numbers followed by use as
a number: returns the first truthy value, `none` if both are falsy
(`order.get('average') or order.get('price')` and the `if not exit_price`
check that follows). -/
def orTruthy (a b : Option ℚ) : Option ℚ :=
  if pyTruthy a then a else if pyTruthy b then b else none

/-- `round(x, 2)` of the source, embedded as rational rounding to two
decimal places. (Python rounds floats with ties to even; no statement in
this development exercises a tie, so half-up rounding on `ℚ` is used.) -/
def round2 (x : ℚ) : ℚ := (⌊x * 100 + 1 / 2⌋ : ℚ) / 100

/- ----------------------------------------------------------------------
VolatilityBreakoutStrategy (src/main.py lines 140-188)
---------------------------------------------------------------------- -/

/-- Mutable state of `VolatilityBreakoutStrategy`: the `k_value` parameter
(default 0.5 via `params.get('k_value', 0.5)`), the computed
`self.target_price` (`None` until `prepare_data` succeeds) and the
`self.bought` single-fire flag. -/
structure VBState where
  k_value : ℚ := 1 / 2
  target_price : Option ℚ := none
  bought : Bool := false
deriving DecidableEq, Repr

/-- `VolatilityBreakoutStrategy.prepare_data`.
`fetched = none` means `fetch_ohlcv` raised (the `except` branch sets
`target_price = None`); otherwise with fewer than 2 candles the target is
set to `None`, else target = today's open + (yesterday's high − low) × k,
with yesterday = `ohlcv[-2]` and today's open = `ohlcv[-1][1]`. -/
def prepare_data (s : VBState) (fetched : Option (List Candle)) : VBState :=
  match fetched with
  | none => { s with target_price := none }
  | some ohlcv =>
    if h : ohlcv.length < 2 then
      { s with target_price := none }
    else
      let yesterday := ohlcv.get ⟨ohlcv.length - 2, by omega⟩
      let today_open := (ohlcv.get ⟨ohlcv.length - 1, by omega⟩).openPrice
      let volatility := yesterday.high - yesterday.low
      { s with target_price := some (today_open + volatility * s.k_value) }

/-- `VolatilityBreakoutStrategy.get_signal`.
`tick = none` means `fetch_ticker` raised (caught, falls through to HOLD);
`tick = some p` is `ticker['last']`. Returns HOLD when `self.bought` or
`self.target_price is None`; returns BUY and sets `bought := true` exactly
when the current price strictly exceeds the target. -/
def VB.get_signal (s : VBState) (tick : Option ℚ) : Signal × VBState :=
  if s.bought then (Signal.HOLD, s)
  else
    match s.target_price with
    | none => (Signal.HOLD, s)
    | some target =>
      match tick with
      | none => (Signal.HOLD, s)
      | some current_price =>
        if target < current_price then (Signal.BUY, { s with bought := true })
        else (Signal.HOLD, s)

/-- `VolatilityBreakoutStrategy.reset`: clears the fired flag and the target. -/
def VB.reset (s : VBState) : VBState :=
  { s with bought := false, target_price := none }

/-- Runs `get_signal` over a feed of successive ticker results, threading the
strategy state; returns the emitted signals in order and the final state. -/
def runSignals (s : VBState) : List (Option ℚ) → List Signal × VBState
  | [] => ([], s)
  | t :: ts =>
    let out := VB.get_signal s t
    let rest := runSignals out.2 ts
    (out.1 :: rest.1, rest.2)

/- ----------------------------------------------------------------------
RSIStrategy (src/main.py lines 190-224)
---------------------------------------------------------------------- -/

/-- The `params` dict of `RSIStrategy`; a `none` field is an absent key, and
`params.get(key, default)` supplies the documented default. -/
structure RSIParams where
  rsi_period : Option ℕ := some 14
  oversold : Option ℚ := some 30
  overbought : Option ℚ := some 70
deriving DecidableEq, Repr

/-- The threshold classification of `RSIStrategy.get_signal`, given the
oscillator value computed by `df.ta.rsi` from the fetched window:
`rsi = none` covers `rsi is None or rsi.empty` (window too short) as well as
a raised exception, in which case the source returns HOLD; otherwise the
last RSI value is compared with `params.get('oversold', 30)` and
`params.get('overbought', 70)`. -/
def RSI.get_signal (params : RSIParams) (rsi : Option ℚ) : Signal :=
  match rsi with
  | none => Signal.HOLD
  | some last_rsi =>
    let oversold_threshold := params.oversold.getD 30
    let overbought_threshold := params.overbought.getD 70
    if last_rsi < oversold_threshold then Signal.BUY
    else if overbought_threshold < last_rsi then Signal.SELL
    else Signal.HOLD

/- ----------------------------------------------------------------------
TradingBot: position manager (src/main.py lines 230-356)
---------------------------------------------------------------------- -/

/-- `self.position`: `{'entry_price': float, 'amount': float, 'timestamp': str}`.
`amount` is stored as `order.get('filled', amount)` in `buy_position`, so the
recorded value can be `None` (embedded as `none`) or `0`. -/
structure Position where
  entry_price : ℚ
  amount : Option ℚ
  timestamp : String
deriving DecidableEq, Repr

/-- One row of the `PerformanceLogger` CSV
(`entry_time,exit_time,symbol,entry_price,exit_price,amount,profit_krw,profit_percent`). -/
structure TradeRecord where
  entry_time : String
  exit_time : String
  symbol : String
  entry_price : ℚ
  exit_price : ℚ
  amount : ℚ
  profit_krw : ℚ
  profit_percent : ℚ
deriving DecidableEq, Repr

/-- Telegram notifications sent by the bot, as structured tags for the
formatted message strings of the source. -/
inductive Msg where
  | startOk
  | startFailed
  | buyFilled (entry_price : ℚ) (amount : Option ℚ)
  | buyFailed
  | sellFilled (reason : Reason) (profit_krw profit_percent : ℚ)
  | sellFailed
  | shutdown
  | loopError
deriving DecidableEq, Repr

/-- Observable side effects, recorded in statement order: gateway calls,
trade-log appends, notifications, the final `self.position = {}` clearing
statement of `sell_position`, and the loop's sleeps. -/
inductive Eff where
  | loadMarkets
  | fetchTicker
  | fetchOHLCV
  | createBuyOrder (amount : ℚ)
  | createSellOrder (amount : ℚ)
  | logTrade (r : TradeRecord)
  | notify (m : Msg)
  | clearPosition
  | closeExchange
  | querySignal
  | sleepSec (n : ℕ)
deriving DecidableEq, Repr

/-- Whether an effect is a trade-log append. -/
def Eff.isLogTrade : Eff → Bool
  | .logTrade _ => true
  | _ => false

/-- Whether an effect is a gateway call (`load_markets`, `fetch_ticker`,
`fetch_ohlcv`, order placement, `close`). -/
def Eff.isGatewayCall : Eff → Bool
  | .loadMarkets => true
  | .fetchTicker => true
  | .fetchOHLCV => true
  | .createBuyOrder _ => true
  | .createSellOrder _ => true
  | .closeExchange => true
  | _ => false

/-- The bot fields `sell_position`/`buy_position` read and write:
`self.symbol`, `self.budget`, `self.position`. -/
structure PMState where
  symbol : String
  budget : ℚ
  position : Option Position
deriving DecidableEq, Repr

/-- Result of `create_market_sell_order`: the optional `average` and `price`
fields of the returned order dict. -/
structure SellOrderResult where
  average : Option ℚ
  price : Option ℚ
deriving DecidableEq, Repr

/-- Result of `create_market_buy_order`: optional `average` and `price`, and
the `filled` key — `none` when the key is absent (so `order.get('filled',
amount)` falls back to the computed amount), `some v` when present with
value `v`, itself possibly `None`. -/
structure BuyOrderResult where
  average : Option ℚ
  price : Option ℚ
  filled : Option (Option ℚ)
deriving DecidableEq, Repr

/-- External-world responses consumed by one `sell_position` call:
`order = none` means `create_market_sell_order` raised; `ticker = none`
means the fallback `fetch_ticker` raised; `now` is
`datetime.now().strftime(...)`. -/
structure SellEnv where
  order : Option SellOrderResult
  ticker : Option ℚ
  now : String
deriving DecidableEq, Repr

/-- External-world responses consumed by one `buy_position` call. -/
structure BuyEnv where
  ticker : Option ℚ
  order : Option BuyOrderResult
  now : String
deriving DecidableEq, Repr

/-- `TradingBot.sell_position(reason)`, src/main.py lines 276-320.
Early-returns (no gateway call, no record) when `self.position` is empty or
`not amount_to_sell`; otherwise places a market sell, determines the exit
price from `order.get('average') or order.get('price')` with a
`fetch_ticker` fallback, computes P&L, appends one trade record, sends the
sell notification, and clears the position as the final statement. Any
exception in the `try` block leaves the position unchanged and sends the
failure notification. -/
def sell_position (s : PMState) (env : SellEnv) (reason : Reason) :
    PMState × List Eff :=
  match s.position with
  | none => (s, [])
  | some pos =>
    if pyTruthy pos.amount then
      let amount_to_sell := pos.amount.getD 0
      match env.order with
      | none => (s, [Eff.createSellOrder amount_to_sell, Eff.notify Msg.sellFailed])
      | some order =>
        let sellEff := Eff.createSellOrder amount_to_sell
        let priced : Option (ℚ × List Eff) :=
          match orTruthy order.average order.price with
          | some p => some (p, [sellEff])
          | none =>
            match env.ticker with
            | some p => some (p, [sellEff, Eff.fetchTicker])
            | none => none
        match priced with
        | none => (s, [sellEff, Eff.fetchTicker, Eff.notify Msg.sellFailed])
        | some (exit_price, effs) =>
          let profit_krw := (exit_price - pos.entry_price) * amount_to_sell
          let profit_percent := profit_krw / s.budget * 100
          let record : TradeRecord :=
            { entry_time := pos.timestamp
              exit_time := env.now
              symbol := s.symbol
              entry_price := pos.entry_price
              exit_price := exit_price
              amount := amount_to_sell
              profit_krw := round2 profit_krw
              profit_percent := round2 profit_percent }
          ({ s with position := none },
            effs ++ [Eff.logTrade record,
              Eff.notify (Msg.sellFilled reason profit_krw profit_percent),
              Eff.clearPosition])
    else (s, [])

/-- `TradingBot.buy_position()`, src/main.py lines 323-356.
Early-returns (no gateway call) when `self.position` is non-empty;
otherwise fetches the ticker, computes `amount = budget * 0.9995 / price`
(a zero quoted price would raise `ZeroDivisionError`, caught like any other
exception), places a market buy, and creates the position from the order's
reported average/price (falling back to the quoted price) and
`order.get('filled', amount)`. Any exception leaves the position absent and
sends the failure notification. -/
def buy_position (s : PMState) (env : BuyEnv) : PMState × List Eff :=
  match s.position with
  | some _ => (s, [])
  | none =>
    match env.ticker with
    | none => (s, [Eff.fetchTicker, Eff.notify Msg.buyFailed])
    | some current_price =>
      if current_price = 0 then
        (s, [Eff.fetchTicker, Eff.notify Msg.buyFailed])
      else
        let amount := s.budget * (9995 / 10000) / current_price
        match env.order with
        | none =>
          (s, [Eff.fetchTicker, Eff.createBuyOrder amount, Eff.notify Msg.buyFailed])
        | some order =>
          let entry_price := (orTruthy order.average order.price).getD current_price
          let filled := order.filled.getD (some amount)
          let pos : Position :=
            { entry_price := entry_price, amount := filled, timestamp := env.now }
          ({ s with position := some pos },
            [Eff.fetchTicker, Eff.createBuyOrder amount,
              Eff.notify (Msg.buyFilled entry_price filled)])

/- ----------------------------------------------------------------------
TradingBot: control loop and startup (src/main.py lines 263-274, 358-422)
---------------------------------------------------------------------- -/

/-- `MARKET_RESET_HOUR = 9`. -/
def MARKET_RESET_HOUR : ℕ := 9

/-- Wall-clock fields read by the loop (`datetime.now()`). -/
structure Clock where
  hour : ℕ
  minute : ℕ
  second : ℕ
deriving DecidableEq, Repr

/-- The reset-window test of `run`:
`now.hour == MARKET_RESET_HOUR and now.minute == 0 and now.second < 10`. -/
def inResetWindow (c : Clock) : Bool :=
  c.hour == MARKET_RESET_HOUR && c.minute == 0 && c.second < 10

/-- Bot state threaded through the loop when the selected strategy is
`VolatilityBreakout` (the source default `SELECTED_STRATEGY`). -/
structure BotState where
  pm : PMState
  strat : VBState
deriving DecidableEq, Repr

/-- All external-world responses one loop iteration can consume. -/
structure TickEnv where
  clock : Clock
  sellEnv : SellEnv
  buyEnv : BuyEnv
  stratTicker : Option ℚ
  ohlcv : Option (List Candle)
deriving DecidableEq, Repr

/-- One iteration of the `while True` loop of `TradingBot.run` with the
volatility-breakout strategy. In the reset window: `sell_position("정기 매도")`,
then the strategy's `reset()` and `prepare_data()` (both present on this
strategy), then `sleep(60)` and `continue` — the strategy is not queried.
Otherwise: query `get_signal` (which itself fetches the ticker unless it
short-circuits), act on BUY/SELL guarded by the position state, and sleep
the strategy-dependent 2 seconds. -/
def runTick (b : BotState) (env : TickEnv) : BotState × List Eff :=
  if inResetWindow env.clock then
    let sold := sell_position b.pm env.sellEnv Reason.scheduledReset
    let strat2 := prepare_data (VB.reset b.strat) env.ohlcv
    ({ pm := sold.1, strat := strat2 },
      sold.2 ++ [Eff.fetchOHLCV, Eff.sleepSec 60])
  else
    let out := VB.get_signal b.strat env.stratTicker
    let acted : PMState × List Eff :=
      if out.1 = Signal.BUY ∧ b.pm.position = none then
        buy_position b.pm env.buyEnv
      else if out.1 = Signal.SELL ∧ b.pm.position ≠ none then
        sell_position b.pm env.sellEnv Reason.strategySignal
      else (b.pm, [])
    ({ pm := acted.1, strat := out.2 },
      Eff.querySignal :: acted.2 ++ [Eff.sleepSec 2])

/-- Runs the loop over a finite list of tick environments, accumulating the
effect trace. -/
def runLoop (b : BotState) (envs : List TickEnv) : BotState × List Eff :=
  envs.foldl
    (fun acc e =>
      let out := runTick acc.1 e
      (out.1, acc.2 ++ out.2))
    (b, [])

/-- Number of open positions held by the bot (the single `self.position`
slot, counted). -/
def openCount (s : PMState) : ℕ :=
  if s.position.isSome then 1 else 0

/-- `TradingBot.initialize`: attempts `load_markets`; on success sends the
start notification and returns `True`; on failure sends the failure
notification, calls `close()` (which closes the exchange and sends the
shutdown notification) and returns `False`. `loadOk` is whether
`load_markets` succeeded. (The source method is named `initialize`.) -/
def initBot (loadOk : Bool) : Bool × List Eff :=
  if loadOk then
    (true, [Eff.loadMarkets, Eff.notify Msg.startOk])
  else
    (false, [Eff.loadMarkets, Eff.notify Msg.startFailed,
      Eff.closeExchange, Eff.notify Msg.shutdown])

/-- `main()`: constructs the bot, and `if not await bot.initialize(): return`
— the polling loop only runs when `initialize` returned `True`, followed by
the `finally: await bot.close()`. -/
def mainProg (loadOk : Bool) (b : BotState) (envs : List TickEnv) : List Eff :=
  let init := initBot loadOk
  if init.1 then
    init.2 ++ (runLoop b envs).2 ++ [Eff.closeExchange, Eff.notify Msg.shutdown]
  else
    init.2

/-- The `trade_details` dict built by `sell_position` on a successful sell at
exit price `x` of a position `pos` with traded amount `a`. -/
def sellRecord (s : PMState) (pos : Position) (a x : ℚ) (now : String) :
    TradeRecord :=
  { entry_time := pos.timestamp
    exit_time := now
    symbol := s.symbol
    entry_price := pos.entry_price
    exit_price := x
    amount := a
    profit_krw := round2 ((x - pos.entry_price) * a)
    profit_percent := round2 ((x - pos.entry_price) * a / s.budget * 100) }

/-- The record carried by a trade-log effect, if any. -/
def logOfEff : Eff → Option TradeRecord
  | .logTrade r => some r
  | _ => none

/-- The trade records appended to the CSV log during a trace, in order. -/
def loggedRecords (effs : List Eff) : List TradeRecord :=
  effs.filterMap logOfEff

/- ----------------------------------------------------------------------
Helper lemmas about the embedded operations
---------------------------------------------------------------------- -/

/-- `sell_position` with an empty position is the guard early-return. -/
theorem sell_position_of_flat (s : PMState) (env : SellEnv) (r : Reason)
    (h : s.position = none) : sell_position s env r = (s, []) := by
  simp [sell_position, h]

/-- `sell_position` with a falsy recorded amount is the second early-return. -/
theorem sell_position_of_badAmount (s : PMState) (env : SellEnv) (r : Reason)
    (pos : Position) (hpos : s.position = some pos)
    (ha : pyTruthy pos.amount = false) : sell_position s env r = (s, []) := by
  simp [sell_position, hpos, ha]

/-- `sell_position` when `create_market_sell_order` raises: the order attempt
and the failure notification happen, the state is unchanged. -/
theorem sell_position_of_orderFail (s : PMState) (env : SellEnv) (r : Reason)
    (pos : Position) (hpos : s.position = some pos)
    (a : ℚ) (ha : pos.amount = some a) (ha0 : a ≠ 0)
    (hord : env.order = none) :
    sell_position s env r = (s, [Eff.createSellOrder a, Eff.notify Msg.sellFailed]) := by
  simp [sell_position, hpos, ha, pyTruthy, ha0, hord]

/-- The successful path of `sell_position`: order placed, exit price found
either directly on the order or by the fallback ticker fetch, one record
logged, the sell notification sent, and the position cleared last. -/
theorem sell_position_of_success (s : PMState) (env : SellEnv) (r : Reason)
    (pos : Position) (hpos : s.position = some pos)
    (a : ℚ) (ha : pos.amount = some a) (ha0 : a ≠ 0)
    (ord : SellOrderResult) (hord : env.order = some ord) (x : ℚ)
    (hx : orTruthy ord.average ord.price = some x ∨
      (orTruthy ord.average ord.price = none ∧ env.ticker = some x)) :
    ∃ pre : List Eff,
      (pre = [Eff.createSellOrder a] ∨ pre = [Eff.createSellOrder a, Eff.fetchTicker]) ∧
      sell_position s env r =
        ({ s with position := none },
          pre ++ [Eff.logTrade (sellRecord s pos a x env.now),
            Eff.notify (Msg.sellFilled r ((x - pos.entry_price) * a)
              ((x - pos.entry_price) * a / s.budget * 100)),
            Eff.clearPosition]) := by
  rcases hx with hx | ⟨hx1, hx2⟩
  · exact ⟨[Eff.createSellOrder a], Or.inl rfl, by
      simp [sell_position, hpos, ha, pyTruthy, ha0, hord, hx, sellRecord]⟩
  · exact ⟨[Eff.createSellOrder a, Eff.fetchTicker], Or.inr rfl, by
      simp [sell_position, hpos, ha, pyTruthy, ha0, hord, hx1, hx2, sellRecord]⟩

/-- `buy_position` with a held position is the guard early-return. -/
theorem buy_position_of_held (s : PMState) (env : BuyEnv)
    (h : s.position.isSome = true) : buy_position s env = (s, []) := by
  obtain ⟨p, hp⟩ := Option.isSome_iff_exists.mp h
  simp [buy_position, hp]

/-- `get_signal` returns HOLD and leaves the state unchanged once the
single-fire flag is set. -/
theorem get_signal_of_bought (s : VBState) (t : Option ℚ) (h : s.bought = true) :
    VB.get_signal s t = (Signal.HOLD, s) := by
  simp [VB.get_signal, h]

/-- `get_signal` returns HOLD and leaves the state unchanged while no
breakout target is defined. -/
theorem get_signal_of_noTarget (s : VBState) (t : Option ℚ)
    (h : s.target_price = none) : VB.get_signal s t = (Signal.HOLD, s) := by
  by_cases hb : s.bought <;> simp [VB.get_signal, hb, h]

/-- A state on which every single `get_signal` call holds and stands still
also holds over any whole feed. -/
theorem runSignals_hold (s : VBState)
    (h : ∀ t, VB.get_signal s t = (Signal.HOLD, s)) (ts : List (Option ℚ)) :
    runSignals s ts = (ts.map fun _ => Signal.HOLD, s) := by
  induction ts with
  | nil => simp [runSignals]
  | cons t ts ih => simp [runSignals, h t, ih]

/-- `getD` over a constant-HOLD list is HOLD at every index. -/
theorem getD_map_hold (l : List (Option ℚ)) (i : ℕ) :
    (l.map fun _ => Signal.HOLD).getD i Signal.HOLD = Signal.HOLD := by
  induction l generalizing i with
  | nil => simp [List.getD]
  | cons x l ih => cases i <;> simp [List.getD_cons_zero, List.getD_cons_succ, ih]

/-- Core single-fire computation: starting flat with a defined target, on a
feed whose prices stay at or below the target before index `k` and strictly
exceed it at index `k`, the emitted signal list is BUY at `k` and HOLD
everywhere else, and the final state has the fired flag set with the target
retained. -/
theorem runSignals_first_cross (t kv : ℚ) (k : ℕ) (ps : List ℚ)
    (hk : k < ps.length)
    (hbefore : ∀ i, i < k → ps.getD i 0 ≤ t)
    (hcross : t < ps.getD k 0) :
    (runSignals ⟨kv, some t, false⟩ (ps.map some)).1.length = ps.length ∧
    (∀ i, (runSignals ⟨kv, some t, false⟩ (ps.map some)).1.getD i Signal.HOLD
        = if i = k then Signal.BUY else Signal.HOLD) ∧
    (runSignals ⟨kv, some t, false⟩ (ps.map some)).2 = ⟨kv, some t, true⟩ := by
  induction ps generalizing k with
  | nil => simp at hk
  | cons p ps ih =>
    cases k with
    | zero =>
      have hp : t < p := by simpa using hcross
      have hsig : VB.get_signal ⟨kv, some t, false⟩ (some p)
          = (Signal.BUY, ⟨kv, some t, true⟩) := by
        simp [VB.get_signal, hp]
      have hrest : runSignals ⟨kv, some t, true⟩ (ps.map some)
          = ((ps.map some).map fun _ => Signal.HOLD, ⟨kv, some t, true⟩) :=
        runSignals_hold _ (fun u => get_signal_of_bought _ u rfl) _
      have hstep : runSignals ⟨kv, some t, false⟩ (some p :: ps.map some)
          = (Signal.BUY :: (ps.map some).map fun _ => Signal.HOLD,
             ⟨kv, some t, true⟩) := by
        simp [runSignals, hsig, hrest]
      simp only [List.map_cons]
      refine ⟨?_, ?_, ?_⟩
      · simp [hstep]
      · intro i
        cases i with
        | zero => rw [hstep, List.getD_cons_zero]; rfl
        | succ j =>
          rw [hstep]
          show ((ps.map some).map fun _ => Signal.HOLD).getD j Signal.HOLD = _
          rw [getD_map_hold]
          simp
      · simp [hstep]
    | succ k =>
      have hp : p ≤ t := by simpa using hbefore 0 (Nat.succ_pos k)
      have hsig : VB.get_signal ⟨kv, some t, false⟩ (some p)
          = (Signal.HOLD, ⟨kv, some t, false⟩) := by
        simp [VB.get_signal, not_lt.mpr hp]
      have hk' : k < ps.length := Nat.lt_of_succ_lt_succ hk
      have hbefore' : ∀ i, i < k → ps.getD i 0 ≤ t := by
        intro i hi
        simpa [List.getD_cons_succ] using hbefore (i + 1) (Nat.succ_lt_succ hi)
      have hcross' : t < ps.getD k 0 := by simpa [List.getD_cons_succ] using hcross
      obtain ⟨ihlen, ihgetD, ihstate⟩ := ih k hk' hbefore' hcross'
      have hstep : runSignals ⟨kv, some t, false⟩ (some p :: ps.map some)
          = (Signal.HOLD :: (runSignals ⟨kv, some t, false⟩ (ps.map some)).1,
             (runSignals ⟨kv, some t, false⟩ (ps.map some)).2) := by
        simp [runSignals, hsig]
      simp only [List.map_cons]
      refine ⟨?_, ?_, ?_⟩
      · simp [hstep, ihlen]
      · intro i
        cases i with
        | zero => rw [hstep, List.getD_cons_zero]; simp
        | succ j =>
          rw [hstep]
          show (runSignals ⟨kv, some t, false⟩ (ps.map some)).1.getD j Signal.HOLD = _
          rw [ihgetD j]
          by_cases hj : j = k
          · simp [hj]
          · have hjk : j + 1 ≠ k + 1 := by omega
            simp [hj, hjk]
      · simp [hstep, ihstate]

/- ----------------------------------------------------------------------
Claim theorems
---------------------------------------------------------------------- -/

/-- C1. At-most-one-position invariant: over any sequence of control-loop
ticks (any prefix of any environment sequence), the number of open Positions
is 0 or 1, and `buy_position` with a non-empty `self.position` returns
without any Gateway call and without touching the state. -/
theorem at_most_one_position (b : BotState) (envs : List TickEnv) (n : ℕ)
    (s : PMState) (env : BuyEnv) (h : s.position.isSome = true) :
    openCount (runLoop b (envs.take n)).1.pm ≤ 1 ∧
    buy_position s env = (s, []) := by
  refine ⟨?_, buy_position_of_held s env h⟩
  unfold openCount
  split <;> omega

/-- Witness for C1 at a concrete state with an open position. -/
theorem at_most_one_position_witness :
    openCount (runLoop ⟨⟨"BTC/KRW", 5000, none⟩, {}⟩ ([].take 0)).1.pm ≤ 1 ∧
    buy_position ⟨"BTC/KRW", 5000, some ⟨100, some 1, "t0"⟩⟩ ⟨some 120, none, "t1"⟩
      = (⟨"BTC/KRW", 5000, some ⟨100, some 1, "t0"⟩⟩, []) :=
  at_most_one_position ⟨⟨"BTC/KRW", 5000, none⟩, {}⟩ [] 0
    ⟨"BTC/KRW", 5000, some ⟨100, some 1, "t0"⟩⟩ ⟨some 120, none, "t1"⟩ rfl

/-- C6. Indicator-threshold classification of the RSI strategy: with a
computable oscillator value `v` (and an oversold threshold not above the
overbought one, as in the defaults 30/70), the signal is BUY iff `v` is
strictly below the oversold threshold, SELL iff strictly above the
overbought threshold, HOLD otherwise; an uncomputable value (window too
short) gives HOLD. -/
theorem rsi_threshold_classification (params : RSIParams) (v : ℚ)
    (hconfig : params.oversold.getD 30 ≤ params.overbought.getD 70) :
    (RSI.get_signal params (some v) = Signal.BUY ↔ v < params.oversold.getD 30) ∧
    (RSI.get_signal params (some v) = Signal.SELL ↔ params.overbought.getD 70 < v) ∧
    (RSI.get_signal params (some v) = Signal.HOLD ↔
      params.oversold.getD 30 ≤ v ∧ v ≤ params.overbought.getD 70) ∧
    RSI.get_signal params none = Signal.HOLD := by
  unfold RSI.get_signal
  refine ⟨?_, ?_, ?_, rfl⟩ <;>
    (dsimp only; split_ifs with h1 h2 <;> simp_all <;> linarith)

/-- Witness for C6: the spec's instances 25 ⇒ BUY, 75 ⇒ SELL, 50 ⇒ HOLD at
the default thresholds. -/
theorem rsi_threshold_classification_witness :
    RSI.get_signal {} (some 25) = Signal.BUY ∧
    RSI.get_signal {} (some 75) = Signal.SELL ∧
    RSI.get_signal {} (some 50) = Signal.HOLD :=
  ⟨(rsi_threshold_classification {} 25 (by norm_num)).1.mpr (by norm_num),
   (rsi_threshold_classification {} 75 (by norm_num)).2.1.mpr (by norm_num),
   (rsi_threshold_classification {} 50 (by norm_num)).2.2.1.mpr (by norm_num)⟩

/-- C7. Breakout insufficient-data degradation: with fewer than two daily
candles (or a failed fetch), `prepare_data` leaves the target undefined,
and every subsequent `get_signal` call — over any whole feed of ticks —
returns HOLD with the state unchanged (no exception: the embedding is a
total function). -/
theorem breakout_insufficient_data_holds (s : VBState)
    (fetched : Option (List Candle)) (hlen : (fetched.getD []).length < 2)
    (ticks : List (Option ℚ)) :
    (prepare_data s fetched).target_price = none ∧
    runSignals (prepare_data s fetched) ticks
      = (ticks.map fun _ => Signal.HOLD, prepare_data s fetched) := by
  have htp : (prepare_data s fetched).target_price = none := by
    cases fetched with
    | none => rfl
    | some l =>
      simp only [Option.getD_some] at hlen
      simp [prepare_data, hlen]
  exact ⟨htp, runSignals_hold _ (fun u => get_signal_of_noTarget _ u htp) ticks⟩

/-- Witness for C7 with a single-candle fetch and a two-tick feed. -/
theorem breakout_insufficient_data_holds_witness :
    (prepare_data {} (some [⟨0, 1, 2, 3, 4, 5⟩])).target_price = none ∧
    runSignals (prepare_data {} (some [⟨0, 1, 2, 3, 4, 5⟩])) [some 5, some 6]
      = ([Signal.HOLD, Signal.HOLD], prepare_data {} (some [⟨0, 1, 2, 3, 4, 5⟩])) :=
  breakout_insufficient_data_holds {} (some [⟨0, 1, 2, 3, 4, 5⟩]) (by decide)
    [some 5, some 6]

/-- C8. No-op guards produce no effects: `sell_position` with no Position,
and `buy_position` with an existing Position, perform no Gateway call,
write no TradeRecord (empty effect trace) and leave the state unchanged. -/
theorem noop_guards_no_effects (s : PMState) (senv : SellEnv) (r : Reason)
    (hs : s.position = none) (t : PMState) (benv : BuyEnv)
    (ht : t.position.isSome = true) :
    sell_position s senv r = (s, []) ∧ buy_position t benv = (t, []) :=
  ⟨sell_position_of_flat s senv r hs, buy_position_of_held t benv ht⟩

/-- Witness for C8 at concrete flat/held states. -/
theorem noop_guards_no_effects_witness :
    sell_position ⟨"BTC/KRW", 5000, none⟩ ⟨none, none, "t1"⟩ Reason.scheduledReset
      = (⟨"BTC/KRW", 5000, none⟩, []) ∧
    buy_position ⟨"BTC/KRW", 5000, some ⟨100, some 1, "t0"⟩⟩ ⟨some 99, none, "t1"⟩
      = (⟨"BTC/KRW", 5000, some ⟨100, some 1, "t0"⟩⟩, []) :=
  noop_guards_no_effects ⟨"BTC/KRW", 5000, none⟩ ⟨none, none, "t1"⟩
    Reason.scheduledReset rfl ⟨"BTC/KRW", 5000, some ⟨100, some 1, "t0"⟩⟩
    ⟨some 99, none, "t1"⟩ rfl

/-- C9. Startup failure policy: when the initial `load_markets` fails, the
whole program trace is the failed load, the failure notification, the
gateway close and the shutdown notification — the polling loop is never
entered (in particular the strategy is never queried) — and `initialize`
returns success exactly when the market load succeeded. -/
theorem startup_failure_policy (b : BotState) (envs : List TickEnv) (lo : Bool) :
    mainProg false b envs =
      [Eff.loadMarkets, Eff.notify Msg.startFailed, Eff.closeExchange,
        Eff.notify Msg.shutdown] ∧
    Eff.querySignal ∉ mainProg false b envs ∧
    Eff.closeExchange ∈ mainProg false b envs ∧
    Eff.notify Msg.startFailed ∈ mainProg false b envs ∧
    (initBot lo).1 = lo := by
  have h : mainProg false b envs =
      [Eff.loadMarkets, Eff.notify Msg.startFailed, Eff.closeExchange,
        Eff.notify Msg.shutdown] := rfl
  exact ⟨h, by rw [h]; decide, by rw [h]; decide, by rw [h]; decide,
    by cases lo <;> rfl⟩

/-- C10. Stuck-position edge case: with an open Position whose recorded
amount is `None` or `0`, `sell_position` returns early — no sell order, no
TradeRecord, no clearing, state unchanged; and such a Position is exactly
what `buy_position` creates when the buy order reports `filled = None`
(stored via `order.get('filled', amount)`). -/
theorem stuck_position_amount_guard (s : PMState) (senv : SellEnv) (r : Reason)
    (pos : Position) (hpos : s.position = some pos)
    (ha : pos.amount = none ∨ pos.amount = some 0)
    (t : PMState) (benv : BuyEnv) (ht : t.position = none)
    (p : ℚ) (hp : benv.ticker = some p) (hp0 : p ≠ 0)
    (ord : BuyOrderResult) (hord : benv.order = some ord)
    (hfill : ord.filled = some none) :
    sell_position s senv r = (s, []) ∧
    Option.map Position.amount (buy_position t benv).1.position = some none := by
  constructor
  · refine sell_position_of_badAmount s senv r pos hpos ?_
    rcases ha with h | h <;> simp [pyTruthy, h]
  · simp [buy_position, ht, hp, hp0, hord, hfill]

/-- Witness for C10: a buy whose order reports `filled = None` creates a
`None`-amount position, on which a sell attempt is a no-op. -/
theorem stuck_position_amount_guard_witness :
    sell_position ⟨"BTC/KRW", 5000, some ⟨100, none, "t0"⟩⟩
        ⟨some ⟨some 110, none⟩, none, "t1"⟩ Reason.strategySignal
      = (⟨"BTC/KRW", 5000, some ⟨100, none, "t0"⟩⟩, []) ∧
    Option.map Position.amount
        (buy_position ⟨"BTC/KRW", 5000, none⟩
          ⟨some 100, some ⟨some 100, none, some none⟩, "t0"⟩).1.position
      = some none :=
  stuck_position_amount_guard ⟨"BTC/KRW", 5000, some ⟨100, none, "t0"⟩⟩
    ⟨some ⟨some 110, none⟩, none, "t1"⟩ Reason.strategySignal ⟨100, none, "t0"⟩
    rfl (Or.inl rfl) ⟨"BTC/KRW", 5000, none⟩
    ⟨some 100, some ⟨some 100, none, some none⟩, "t0"⟩ rfl 100 rfl
    (by norm_num) ⟨some 100, none, some none⟩ rfl rfl

/-- C2 counterexample: an input where `create_market_sell_order` succeeds
(no order-placement failure), yet no TradeRecord is emitted and the open
Position is not cleared: the returned order reports neither average nor
price and the fallback `fetch_ticker` raises, so the `except` branch runs.
This refutes the claim as stated. -/
theorem sell_success_without_record_counterexample :
    (⟨some ⟨none, none⟩, none, "t1"⟩ : SellEnv).order.isSome = true ∧
    (sell_position ⟨"BTC/KRW", 200, some ⟨100, some 2, "t0"⟩⟩
        ⟨some ⟨none, none⟩, none, "t1"⟩ Reason.strategySignal).2.countP
        Eff.isLogTrade = 0 ∧
    sell_position ⟨"BTC/KRW", 200, some ⟨100, some 2, "t0"⟩⟩
        ⟨some ⟨none, none⟩, none, "t1"⟩ Reason.strategySignal
      = (⟨"BTC/KRW", 200, some ⟨100, some 2, "t0"⟩⟩,
          [Eff.createSellOrder 2, Eff.fetchTicker, Eff.notify Msg.sellFailed]) := by
  exact ⟨rfl, by decide, by decide⟩

/-- C2 (amended). Sell ordering and atomicity: when `sell_position` runs
with an open Position (truthy amount), the market sell order succeeds and
an exit price is determined (reported on the order, or via a successful
fallback ticker fetch), exactly one TradeRecord is emitted and the Position
is cleared only after the record is written and the notification attempted
— clearing is the final trace step, nowhere earlier; when order placement
fails, the Position is left completely unchanged and the failure is
reported via the Notifier without propagating. -/
theorem sell_ordering_atomicity (s : PMState) (r : Reason)
    (pos : Position) (hpos : s.position = some pos)
    (a : ℚ) (ha : pos.amount = some a) (ha0 : a ≠ 0)
    (envS : SellEnv) (ord : SellOrderResult) (hord : envS.order = some ord)
    (x : ℚ) (hx : orTruthy ord.average ord.price = some x ∨
      (orTruthy ord.average ord.price = none ∧ envS.ticker = some x))
    (envF : SellEnv) (hf : envF.order = none) :
    ((sell_position s envS r).1.position = none ∧
      (sell_position s envS r).2.countP Eff.isLogTrade = 1 ∧
      (sell_position s envS r).2.getLast? = some Eff.clearPosition ∧
      ∃ pre : List Eff, pre.countP Eff.isLogTrade = 0 ∧ Eff.clearPosition ∉ pre ∧
        (sell_position s envS r).2 =
          pre ++ [Eff.logTrade (sellRecord s pos a x envS.now),
            Eff.notify (Msg.sellFilled r ((x - pos.entry_price) * a)
              ((x - pos.entry_price) * a / s.budget * 100)),
            Eff.clearPosition]) ∧
    sell_position s envF r
      = (s, [Eff.createSellOrder a, Eff.notify Msg.sellFailed]) := by
  obtain ⟨pre, hpre, heq⟩ :=
    sell_position_of_success s envS r pos hpos a ha ha0 ord hord x hx
  refine ⟨⟨?_, ?_, ?_, pre, ?_, ?_, by rw [heq]⟩,
    sell_position_of_orderFail s envF r pos hpos a ha ha0 hf⟩
  · rw [heq]
  · rw [heq]; rcases hpre with rfl | rfl <;> simp [Eff.isLogTrade]
  · rw [heq]; rcases hpre with rfl | rfl <;> rfl
  · rcases hpre with rfl | rfl <;> simp [Eff.isLogTrade]
  · rcases hpre with rfl | rfl <;> simp

/-- Witness for C2 (amended) at a concrete successful sell (exit 110 on the
order) and a concrete failed order placement. -/
theorem sell_ordering_atomicity_witness :
    ((sell_position ⟨"BTC/KRW", 200, some ⟨100, some 2, "t0"⟩⟩
        ⟨some ⟨some 110, none⟩, none, "t1"⟩ Reason.strategySignal).1.position
        = none ∧
      (sell_position ⟨"BTC/KRW", 200, some ⟨100, some 2, "t0"⟩⟩
        ⟨some ⟨some 110, none⟩, none, "t1"⟩ Reason.strategySignal).2.countP
        Eff.isLogTrade = 1 ∧
      (sell_position ⟨"BTC/KRW", 200, some ⟨100, some 2, "t0"⟩⟩
        ⟨some ⟨some 110, none⟩, none, "t1"⟩ Reason.strategySignal).2.getLast?
        = some Eff.clearPosition ∧
      ∃ pre : List Eff, pre.countP Eff.isLogTrade = 0 ∧ Eff.clearPosition ∉ pre ∧
        (sell_position ⟨"BTC/KRW", 200, some ⟨100, some 2, "t0"⟩⟩
          ⟨some ⟨some 110, none⟩, none, "t1"⟩ Reason.strategySignal).2 =
          pre ++ [Eff.logTrade (sellRecord ⟨"BTC/KRW", 200, some ⟨100, some 2, "t0"⟩⟩
              ⟨100, some 2, "t0"⟩ 2 110 "t1"),
            Eff.notify (Msg.sellFilled Reason.strategySignal ((110 - 100) * 2)
              ((110 - 100) * 2 / 200 * 100)),
            Eff.clearPosition]) ∧
    sell_position ⟨"BTC/KRW", 200, some ⟨100, some 2, "t0"⟩⟩
        ⟨none, none, "t2"⟩ Reason.strategySignal
      = (⟨"BTC/KRW", 200, some ⟨100, some 2, "t0"⟩⟩,
          [Eff.createSellOrder 2, Eff.notify Msg.sellFailed]) :=
  sell_ordering_atomicity ⟨"BTC/KRW", 200, some ⟨100, some 2, "t0"⟩⟩
    Reason.strategySignal ⟨100, some 2, "t0"⟩ rfl 2 rfl (by norm_num)
    ⟨some ⟨some 110, none⟩, none, "t1"⟩ ⟨some 110, none⟩ rfl 110 (Or.inl rfl)
    ⟨none, none, "t2"⟩ rfl

/-- C3. Breakout single-fire: starting flat with a defined target `t`, on a
price feed whose prices stay at or below the target before index `k` and
strictly exceed it from `k` on, `get_signal` returns BUY exactly at index
`k` and HOLD at every other index; the fired flag is set in the final state
with the target untouched, stays set over any continuation feed (all HOLD
until a reset), and `reset()` clears it. -/
theorem breakout_single_fire (t kv : ℚ) (k : ℕ) (ps : List ℚ)
    (hk : k < ps.length)
    (hbefore : ∀ i, i < k → ps.getD i 0 ≤ t)
    (hafter : ∀ i, k ≤ i → i < ps.length → t < ps.getD i 0)
    (qs : List (Option ℚ)) (i : ℕ) :
    (runSignals ⟨kv, some t, false⟩ (ps.map some)).1.length = ps.length ∧
    ((runSignals ⟨kv, some t, false⟩ (ps.map some)).1.getD i Signal.HOLD
      = if i = k then Signal.BUY else Signal.HOLD) ∧
    (runSignals ⟨kv, some t, false⟩ (ps.map some)).2 = ⟨kv, some t, true⟩ ∧
    (runSignals ⟨kv, some t, true⟩ qs).1 = qs.map (fun _ => Signal.HOLD) ∧
    VB.reset ⟨kv, some t, true⟩ = ⟨kv, none, false⟩ := by
  obtain ⟨hlen, hgetD, hstate⟩ :=
    runSignals_first_cross t kv k ps hk hbefore (hafter k le_rfl hk)
  refine ⟨hlen, hgetD i, hstate, ?_, rfl⟩
  rw [runSignals_hold _ (fun u => get_signal_of_bought _ u rfl) qs]

/-- Witness for C3: target 3, feed 1, 2, 5, 6 first exceeding the target at
index 2 (the third tick), checked at the firing index. -/
theorem breakout_single_fire_witness :
    (runSignals ⟨1/2, some 3, false⟩ (([1, 2, 5, 6] : List ℚ).map some)).1.length
      = ([1, 2, 5, 6] : List ℚ).length ∧
    ((runSignals ⟨1/2, some 3, false⟩ (([1, 2, 5, 6] : List ℚ).map some)).1.getD 2
        Signal.HOLD = Signal.BUY) ∧
    (runSignals ⟨1/2, some 3, false⟩ (([1, 2, 5, 6] : List ℚ).map some)).2
      = ⟨1/2, some 3, true⟩ ∧
    (runSignals ⟨1/2, some 3, true⟩ [some 7]).1 = [some 7].map (fun _ => Signal.HOLD) ∧
    VB.reset ⟨1/2, some 3, true⟩ = ⟨1/2, none, false⟩ :=
  breakout_single_fire 3 (1/2) 2 [1, 2, 5, 6] (by norm_num)
    (by intro j hj; interval_cases j <;> decide)
    (by
      intro j hj1 hj2
      norm_num at hj2
      interval_cases j <;> decide) [some 7] 2

/-- C4. Daily reset forces flatten: on a tick inside the reset window with
an open Position (and a sell that goes through), the Position is sold with
the scheduled-reset reason regardless of the strategy's current signal
(nothing constrains it here), the strategy's `reset()` and `prepare_data()`
are both invoked, and the strategy is not queried for a signal. -/
theorem daily_reset_forces_flatten (b : BotState) (env : TickEnv)
    (hw : inResetWindow env.clock = true)
    (pos : Position) (hpos : b.pm.position = some pos)
    (a : ℚ) (ha : pos.amount = some a) (ha0 : a ≠ 0)
    (ord : SellOrderResult) (hord : env.sellEnv.order = some ord)
    (x : ℚ) (hx : orTruthy ord.average ord.price = some x ∨
      (orTruthy ord.average ord.price = none ∧ env.sellEnv.ticker = some x)) :
    (runTick b env).1.pm.position = none ∧
    Eff.notify (Msg.sellFilled Reason.scheduledReset ((x - pos.entry_price) * a)
        ((x - pos.entry_price) * a / b.pm.budget * 100)) ∈ (runTick b env).2 ∧
    (runTick b env).1.strat = prepare_data (VB.reset b.strat) env.ohlcv ∧
    Eff.querySignal ∉ (runTick b env).2 := by
  obtain ⟨pre, hpre, heq⟩ := sell_position_of_success b.pm env.sellEnv
    Reason.scheduledReset pos hpos a ha ha0 ord hord x hx
  have hrt : runTick b env =
      ({ pm := (sell_position b.pm env.sellEnv Reason.scheduledReset).1,
         strat := prepare_data (VB.reset b.strat) env.ohlcv },
        (sell_position b.pm env.sellEnv Reason.scheduledReset).2
          ++ [Eff.fetchOHLCV, Eff.sleepSec 60]) := by
    simp [runTick, hw]
  rw [hrt, heq]
  refine ⟨rfl, ?_, rfl, ?_⟩
  · rcases hpre with rfl | rfl <;> simp
  · rcases hpre with rfl | rfl <;> simp

/-- Witness for C4: clock 09:00:05, open position of amount 2 at entry 100,
sell order filled at average 110, two fresh daily candles fetched. -/
theorem daily_reset_forces_flatten_witness :
    (runTick ⟨⟨"BTC/KRW", 200, some ⟨100, some 2, "t0"⟩⟩, ⟨1/2, some 150, true⟩⟩
        ⟨⟨9, 0, 5⟩, ⟨some ⟨some 110, none⟩, none, "t1"⟩, ⟨none, none, "t1"⟩,
          some 120, some [⟨0, 100, 120, 90, 110, 7⟩, ⟨1, 111, 111, 111, 111, 7⟩]⟩).1.pm.position
      = none ∧
    Eff.notify (Msg.sellFilled Reason.scheduledReset ((110 - 100) * 2)
        ((110 - 100) * 2 / 200 * 100)) ∈
      (runTick ⟨⟨"BTC/KRW", 200, some ⟨100, some 2, "t0"⟩⟩, ⟨1/2, some 150, true⟩⟩
        ⟨⟨9, 0, 5⟩, ⟨some ⟨some 110, none⟩, none, "t1"⟩, ⟨none, none, "t1"⟩,
          some 120, some [⟨0, 100, 120, 90, 110, 7⟩, ⟨1, 111, 111, 111, 111, 7⟩]⟩).2 ∧
    (runTick ⟨⟨"BTC/KRW", 200, some ⟨100, some 2, "t0"⟩⟩, ⟨1/2, some 150, true⟩⟩
        ⟨⟨9, 0, 5⟩, ⟨some ⟨some 110, none⟩, none, "t1"⟩, ⟨none, none, "t1"⟩,
          some 120, some [⟨0, 100, 120, 90, 110, 7⟩, ⟨1, 111, 111, 111, 111, 7⟩]⟩).1.strat
      = prepare_data (VB.reset ⟨1/2, some 150, true⟩)
          (some [⟨0, 100, 120, 90, 110, 7⟩, ⟨1, 111, 111, 111, 111, 7⟩]) ∧
    Eff.querySignal ∉
      (runTick ⟨⟨"BTC/KRW", 200, some ⟨100, some 2, "t0"⟩⟩, ⟨1/2, some 150, true⟩⟩
        ⟨⟨9, 0, 5⟩, ⟨some ⟨some 110, none⟩, none, "t1"⟩, ⟨none, none, "t1"⟩,
          some 120, some [⟨0, 100, 120, 90, 110, 7⟩, ⟨1, 111, 111, 111, 111, 7⟩]⟩).2 :=
  daily_reset_forces_flatten
    ⟨⟨"BTC/KRW", 200, some ⟨100, some 2, "t0"⟩⟩, ⟨1/2, some 150, true⟩⟩
    ⟨⟨9, 0, 5⟩, ⟨some ⟨some 110, none⟩, none, "t1"⟩, ⟨none, none, "t1"⟩,
      some 120, some [⟨0, 100, 120, 90, 110, 7⟩, ⟨1, 111, 111, 111, 111, 7⟩]⟩
    rfl ⟨100, some 2, "t0"⟩ rfl 2 rfl (by norm_num) ⟨some 110, none⟩ rfl 110
    (Or.inl rfl)

/-- C5 counterexample: a successful sell with entry 100, exit 110 and
quantity 1/3 records profit 3.33 — the source applies `round(·, 2)` before
logging — not the exact (exit − entry) × quantity = 10/3, refuting exact
equality of the recorded profit. -/
theorem pnl_recorded_rounding_counterexample :
    (loggedRecords (sell_position ⟨"BTC/KRW", 200, some ⟨100, some (1/3), "t0"⟩⟩
        ⟨some ⟨some 110, none⟩, none, "t1"⟩ (Reason.custom "manual")).2).map
        TradeRecord.profit_krw = [333/100] ∧
    ((110 : ℚ) - 100) * (1/3) ≠ 333/100 := by
  constructor
  · norm_num [sell_position, loggedRecords, logOfEff, List.filterMap_cons,
      pyTruthy, orTruthy, round2]
  · norm_num

/-- C5 (amended). P&L arithmetic: every successful sell writes exactly one
TradeRecord, whose recorded profit is (exit − entry) × quantity rounded to
two decimals and whose recorded percent is profit / budget × 100 rounded to
two decimals (the source rounds with `round(·, 2)` before logging); at the
spec's instance entry=100, exit=110, quantity=2, budget=200 the rounding is
exact and the single record carries profit 20 and percent 10. -/
theorem pnl_arithmetic (s : PMState) (r : Reason)
    (pos : Position) (hpos : s.position = some pos)
    (a : ℚ) (ha : pos.amount = some a) (ha0 : a ≠ 0)
    (env : SellEnv) (ord : SellOrderResult) (hord : env.order = some ord)
    (x : ℚ) (hx : orTruthy ord.average ord.price = some x ∨
      (orTruthy ord.average ord.price = none ∧ env.ticker = some x)) :
    loggedRecords (sell_position s env r).2 = [sellRecord s pos a x env.now] ∧
    (sellRecord s pos a x env.now).profit_krw
      = round2 ((x - pos.entry_price) * a) ∧
    (sellRecord s pos a x env.now).profit_percent
      = round2 ((x - pos.entry_price) * a / s.budget * 100) ∧
    (loggedRecords (sell_position ⟨"BTC/KRW", 200, some ⟨100, some 2, "e0"⟩⟩
        ⟨some ⟨some 110, none⟩, none, "x0"⟩ r).2).map
        (fun rec => (rec.profit_krw, rec.profit_percent)) = [(20, 10)] := by
  obtain ⟨pre, hpre, heq⟩ :=
    sell_position_of_success s env r pos hpos a ha ha0 ord hord x hx
  refine ⟨?_, rfl, rfl, ?_⟩
  · rw [heq]; rcases hpre with rfl | rfl <;> simp [loggedRecords, logOfEff]
  · norm_num [sell_position, loggedRecords, logOfEff, List.filterMap_cons,
      pyTruthy, orTruthy, round2, sellRecord]

/-- Witness for C5 at the spec's instance: entry 100, exit 110, quantity 2,
budget 200. -/
theorem pnl_arithmetic_witness :
    loggedRecords (sell_position ⟨"BTC/KRW", 200, some ⟨100, some 2, "e0"⟩⟩
        ⟨some ⟨some 110, none⟩, none, "x0"⟩ Reason.strategySignal).2
      = [sellRecord ⟨"BTC/KRW", 200, some ⟨100, some 2, "e0"⟩⟩ ⟨100, some 2, "e0"⟩
          2 110 "x0"] ∧
    (sellRecord ⟨"BTC/KRW", 200, some ⟨100, some 2, "e0"⟩⟩ ⟨100, some 2, "e0"⟩
        2 110 "x0").profit_krw = round2 ((110 - 100) * 2) ∧
    (sellRecord ⟨"BTC/KRW", 200, some ⟨100, some 2, "e0"⟩⟩ ⟨100, some 2, "e0"⟩
        2 110 "x0").profit_percent = round2 ((110 - 100) * 2 / 200 * 100) ∧
    (loggedRecords (sell_position ⟨"BTC/KRW", 200, some ⟨100, some 2, "e0"⟩⟩
        ⟨some ⟨some 110, none⟩, none, "x0"⟩ Reason.strategySignal).2).map
        (fun rec => (rec.profit_krw, rec.profit_percent)) = [(20, 10)] :=
  pnl_arithmetic ⟨"BTC/KRW", 200, some ⟨100, some 2, "e0"⟩⟩ Reason.strategySignal
    ⟨100, some 2, "e0"⟩ rfl 2 rfl (by norm_num)
    ⟨some ⟨some 110, none⟩, none, "x0"⟩ ⟨some 110, none⟩ rfl 110 (Or.inl rfl)
